import Mathlib

/-!
Shallow embedding of the TicketSystem repository's ticket lifecycle and
team-membership logic.

The source files embedded here are:
  - tickets/repository/ticket.py (ticket CRUD, status transitions,
    feedback, reassignment),
  - tickets/routers/team_user.py (team membership endpoints),
  - tickets/schemas/ticket.py (request payload shapes).

The relational store is modelled as lists of rows; SQLAlchemy `first()`
is `List.find?` over the row list, and a raised `HTTPException` before
`commit()` leaves the committed state untouched, which the embedding
renders as `Except.error` carrying no new database value.  `datetime.now`
is modelled by an explicit `now : Nat` argument, and the autoincrement
primary key of a freshly inserted ticket by an explicit `fresh_id`
argument.
-/

namespace TicketSystem

/-- Modelled from the spec: the enums module is not in src.  Ticket status
values per the state machine `open → in_progress → closed`. -/
inductive TicketStatus where
  | «open»
  | in_progress
  | closed
deriving DecidableEq, Repr

/-- Modelled from the spec: ticket type is worker or another variant. -/
inductive TicketType where
  | worker
  | other
deriving DecidableEq, Repr

/-- Modelled from the spec: priority low | medium | high, default medium. -/
inductive TicketPriority where
  | low
  | medium
  | high
deriving DecidableEq, Repr

/-- Modelled from the spec: project membership roles are admin | member
(`ProjectRole`); `WorkerRole.worker` also appears in repository code as a
comparable role value, so it is included as a storable value to keep the
embedding generous about which states are representable. -/
inductive Role where
  | admin
  | member
  | worker
deriving DecidableEq, Repr

/-- Modelled from the spec: team membership roles are admin | member. -/
inductive TeamRole where
  | admin
  | member
deriving DecidableEq, Repr

/-- The `.value` string of a status enum member, as used in the
transition-table lookup and the error message of
`update_ticket_status_by_assignee`. -/
def statusValue : TicketStatus → String
  | .«open» => "open"
  | .in_progress => "in_progress"
  | .closed => "closed"

/-- Row of the User table: identity, display name, availability flag. -/
structure User where
  id : Nat
  name : String
  is_available : Bool
deriving DecidableEq, Repr

/-- Row of the Team table. -/
structure Team where
  id : Nat
deriving DecidableEq, Repr

/-- Row of the Project table; `worker_team_id` is the optionally
designated worker team. -/
structure Project where
  id : Nat
  worker_team_id : Option Nat
deriving DecidableEq, Repr

/-- Row of the UserTeam association table. -/
structure UserTeam where
  user_id : Nat
  team_id : Nat
  role : TeamRole
  joined_at : Nat
deriving DecidableEq, Repr

/-- Row of the ProjectUser association table. -/
structure ProjectUser where
  user_id : Nat
  project_id : Nat
  role : Role
deriving DecidableEq, Repr

/-- Row of the Ticket table.  Modelled from the spec where the models
module is not in src: column defaults on insert are status open,
`closed_at`/`feedback`/`updated_at` null and `confirmed` false. -/
structure Ticket where
  id : Nat
  title : String
  description : String
  ttype : TicketType
  priority : TicketPriority
  status : TicketStatus
  created_by : Nat
  assigned_to : Option Nat
  worker_team_id : Option Nat
  team_id : Nat
  project_id : Nat
  feedback : Option String
  confirmed : Bool
  created_at : Nat
  updated_at : Option Nat
  closed_at : Option Nat
deriving DecidableEq, Repr

/-- The relational store: one list of rows per table. -/
structure DB where
  users : List User
  teams : List Team
  projects : List Project
  userTeams : List UserTeam
  projectUsers : List ProjectUser
  tickets : List Ticket
deriving DecidableEq, Repr

/-- A raised fastapi `HTTPException(status_code, detail)`. -/
structure HTTPException where
  status : Nat
  detail : String
deriving DecidableEq, Repr

/-- Payload of `TicketCreate` (tickets/schemas/ticket.py). -/
structure TicketCreate where
  title : String
  description : String
  ttype : TicketType
  team_id : Option Nat
  project_id : Option Nat
  assigned_to_name : Option String
  assigned_to : Option Nat
  worker_team_id : Option Nat
  priority : TicketPriority
deriving DecidableEq, Repr

/-- Payload of `TicketStatusUpdate`. -/
structure TicketStatusUpdate where
  status : TicketStatus
deriving DecidableEq, Repr

/-- Payload of `TicketFeedbackUpdate`. -/
structure TicketFeedbackUpdate where
  feedback : Option String
  confirmed : Bool
deriving DecidableEq, Repr

/-- Payload of `TicketAssigneeUpdate`. -/
structure TicketAssigneeUpdate where
  assigned_to : Nat
deriving DecidableEq, Repr

/-- Python `a or b` on optional integers: `None` and `0` are falsy. -/
def pyOrNat : Option Nat → Option Nat → Option Nat
  | some n, b => if n = 0 then b else some n
  | none, b => b

/-- Python `a or b` on optional strings: `None` and `""` are falsy. -/
def pyOrStr : Option String → Option String → Option String
  | some s, b => if s = "" then b else some s
  | none, b => b

/-- Case-insensitive substring test, modelling the SQL
`ilike "%pat%"` filter of `_resolve_assignee` (used only with a
non-empty pattern). -/
def strContainsCI (hay pat : String) : Bool :=
  (hay.toLower.splitOn pat.toLower).length ≠ 1

/-- The `first()` query for a ticket by id scoped to a project, shared by
every mutating operation in tickets/repository/ticket.py. -/
def findTicket (db : DB) (ticket_id project_id : Nat) : Option Ticket :=
  db.tickets.find? (fun t => t.id == ticket_id && t.project_id == project_id)

/-- Committing an in-session mutation of one ticket row: the row with the
same primary key is replaced. -/
def DB.updateTicket (db : DB) (t' : Ticket) : DB :=
  { db with tickets := db.tickets.map (fun t => if t.id == t'.id then t' else t) }

/-- Lines 39-44 of create_ticket: the effective team is the explicit
override if truthy, else the payload's team_id if truthy, else the
actor's first team membership; `HTTPException(400)` when the actor has
no team membership to fall back on. -/
def resolve_effective_team (db : DB) (team_id : Option Nat)
    (tin_team_id : Option Nat) (user_id : Nat) : Except HTTPException Nat :=
  match pyOrNat team_id tin_team_id with
  | some t => .ok t
  | none =>
    match (db.userTeams.filter (fun ut => ut.user_id == user_id)).head? with
    | none => .error ⟨400, "Team ID must be provided"⟩
    | some ut => .ok ut.team_id

/-- `_resolve_assignee`: fuzzy name lookup scoped to project membership;
`HTTPException(404)` when a truthy name matches nobody. -/
def resolve_assignee (db : DB) (assignee_name : Option String)
    (project_id : Nat) : Except HTTPException (Option Nat) :=
  match assignee_name with
  | none => .ok none
  | some name =>
    if name = "" then .ok none
    else
      match db.users.find? (fun u =>
          db.projectUsers.any (fun pu =>
            pu.user_id == u.id && pu.project_id == project_id) &&
          strContainsCI u.name name) with
      | none => .error ⟨404, "Assignee not found in this project"⟩
      | some u => .ok (some u.id)

/-- Lines 67-75 of create_ticket: worker-team resolution.  An explicit
`worker_team_id` must equal the project's configured one; absent an
explicit value, worker-type tickets take the project's worker team when
it is truthy (a configured id of 0 is falsy in Python, like None). -/
def resolve_worker_team (ticket_in : TicketCreate) (project : Project) :
    Except HTTPException (Option Nat) :=
  match ticket_in.worker_team_id with
  | some w =>
    if project.worker_team_id = some w then .ok (some w)
    else .error ⟨400, "Worker team not assigned to this project"⟩
  | none =>
    if ticket_in.ttype = TicketType.worker then
      match project.worker_team_id with
      | none => .error ⟨400, "No worker team assigned to project"⟩
      | some pw =>
        if pw = 0 then .error ⟨400, "No worker team assigned to project"⟩
        else .ok (some pw)
    else .ok none

/-- `create_ticket` of tickets/repository/ticket.py. -/
def create_ticket (db : DB) (ticket_in : TicketCreate)
    (user_id project_id : Nat) (team_id : Option Nat) (now fresh_id : Nat) :
    Except HTTPException (DB × Ticket) :=
  match resolve_effective_team db team_id ticket_in.team_id user_id with
  | .error e => .error e
  | .ok etid =>
    match db.teams.find? (fun tm => tm.id == etid) with
    | none => .error ⟨404, "Team not found"⟩
    | some team =>
      match db.projects.find? (fun p => p.id == project_id) with
      | none => .error ⟨404, "Project not found"⟩
      | some project =>
        if (db.projectUsers.find? (fun pu =>
              pu.user_id == user_id && pu.project_id == project_id)).isNone then
          .error ⟨403, "You are not a member of this project"⟩
        else
          match resolve_assignee db ticket_in.assigned_to_name project_id with
          | .error e => .error e
          | .ok assigned_user_id =>
            match resolve_worker_team ticket_in project with
            | .error e => .error e
            | .ok assigned_worker_team_id =>
              let ticket : Ticket :=
                { id := fresh_id
                  title := ticket_in.title
                  description := ticket_in.description
                  ttype := ticket_in.ttype
                  priority := ticket_in.priority
                  status := TicketStatus.«open»
                  created_by := user_id
                  assigned_to := assigned_user_id
                  worker_team_id := assigned_worker_team_id
                  team_id := team.id
                  project_id := project_id
                  feedback := none
                  confirmed := false
                  created_at := now
                  updated_at := none
                  closed_at := none }
              .ok ({ db with tickets := db.tickets ++ [ticket] }, ticket)

/-- The one-way transition table `ALLOWED_STATUS_TRANSITIONS`. -/
def ALLOWED_STATUS_TRANSITIONS : TicketStatus → List TicketStatus
  | .«open» => [.in_progress]
  | .in_progress => [.closed]
  | .closed => []

/-- `update_ticket_status_by_assignee` of tickets/repository/ticket.py. -/
def update_ticket_status_by_assignee (db : DB) (ticket_id project_id : Nat)
    (update : TicketStatusUpdate) (current_user : User) (now : Nat) :
    Except HTTPException (DB × Ticket) :=
  match findTicket db ticket_id project_id with
  | none => .error ⟨404, "Ticket not found"⟩
  | some ticket =>
    if ticket.assigned_to ≠ some current_user.id then
      .error ⟨403, "Only assignee can update"⟩
    else if ¬ (ALLOWED_STATUS_TRANSITIONS ticket.status).contains update.status then
      .error ⟨400, "Cannot go from " ++ statusValue ticket.status
                    ++ " to " ++ statusValue update.status⟩
    else
      let t' : Ticket :=
        { ticket with
          status := update.status
          closed_at :=
            if update.status = TicketStatus.closed then some now
            else ticket.closed_at
          updated_at := some now }
      .ok (db.updateTicket t', t')

/-- `leave_feedback_by_creator` of tickets/repository/ticket.py. -/
def leave_feedback_by_creator (db : DB) (ticket_id project_id : Nat)
    (update : TicketFeedbackUpdate) (current_user : User) (now : Nat) :
    Except HTTPException (DB × Ticket) :=
  match findTicket db ticket_id project_id with
  | none => .error ⟨404, "Ticket not found"⟩
  | some ticket =>
    if ticket.created_by ≠ current_user.id then
      .error ⟨403, "Only creator can leave feedback"⟩
    else if ticket.status ≠ TicketStatus.closed then
      .error ⟨400, "Feedback only after close"⟩
    else
      let t' : Ticket :=
        { ticket with
          feedback := pyOrStr update.feedback ticket.feedback
          confirmed := update.confirmed
          updated_at := some now }
      .ok (db.updateTicket t', t')

/-- `update_ticket_assignee` of tickets/repository/ticket.py, including
its two target-role checks and the availability check. -/
def update_ticket_assignee (db : DB) (ticket_id : Nat)
    (update : TicketAssigneeUpdate) (project_id : Nat) :
    Except HTTPException (DB × Ticket) :=
  match findTicket db ticket_id project_id with
  | none => .error ⟨404, "Ticket not found"⟩
  | some ticket =>
    if (db.projectUsers.find? (fun pu =>
          pu.user_id == update.assigned_to && pu.project_id == project_id &&
          pu.role == Role.admin)).isNone then
      .error ⟨403, "Only project admin can reassign"⟩
    else
      match db.projectUsers.find? (fun pu =>
          pu.user_id == update.assigned_to && pu.project_id == project_id) with
      | none => .error ⟨403, "Must be member or worker"⟩
      | some role_link =>
        if ¬ (role_link.role = Role.member ∨ role_link.role = Role.worker) then
          .error ⟨403, "Must be member or worker"⟩
        else
          match db.users.find? (fun u => u.id == update.assigned_to) with
          | none => .error ⟨400, "User not available"⟩
          | some user =>
            if ¬ user.is_available then
              .error ⟨400, "User not available"⟩
            else
              let t' : Ticket := { ticket with assigned_to := some update.assigned_to }
              .ok (db.updateTicket t', t')

/-- `add_user_to_team` of tickets/routers/team_user.py (the `role` query
parameter defaults to `TeamRole.member` at the HTTP layer). -/
def add_user_to_team (db : DB) (user_id team_id : Nat) (role : TeamRole)
    (current_user : User) (now : Nat) :
    Except HTTPException (DB × UserTeam) :=
  if ¬ db.userTeams.any (fun ut =>
        ut.user_id == current_user.id && ut.team_id == team_id &&
        ut.role == TeamRole.admin) then
    .error ⟨403, "Requires team admin role."⟩
  else if (db.userTeams.find? (fun ut =>
        ut.user_id == user_id && ut.team_id == team_id)).isSome then
    .error ⟨400, "User already in team"⟩
  else
    let association : UserTeam :=
      { user_id := user_id, team_id := team_id, role := role, joined_at := now }
    .ok ({ db with userTeams := db.userTeams ++ [association] }, association)

/-- The status code of an errored result, `none` on success. -/
def errStatus {α : Type} : Except HTTPException α → Option Nat
  | .error e => some e.status
  | .ok _ => none

/-- Edges of the status state machine that `ALLOWED_STATUS_TRANSITIONS`
permits, written out as the two successful transitions. -/
def allowedEdge (curr next : TicketStatus) : Prop :=
  (curr = TicketStatus.«open» ∧ next = TicketStatus.in_progress) ∨
  (curr = TicketStatus.in_progress ∧ next = TicketStatus.closed)

instance (curr next : TicketStatus) : Decidable (allowedEdge curr next) := by
  unfold allowedEdge
  infer_instance

/-- C1: for every ticket and every requested status,
`update_ticket_status_by_assignee` succeeds exactly on the edges
open→in_progress and in_progress→closed; every other requested edge
yields `HTTPException(400)` (and, the error carrying no new database
value, leaves the stored ticket unchanged). -/
theorem transition_only_forward_edges
    (db : DB) (ticket_id project_id : Nat) (update : TicketStatusUpdate)
    (u : User) (now : Nat) (t : Ticket)
    (hfind : findTicket db ticket_id project_id = some t)
    (hass : t.assigned_to = some u.id) :
    ((∃ r, update_ticket_status_by_assignee db ticket_id project_id update u now = .ok r) ↔
        allowedEdge t.status update.status) ∧
    (¬ allowedEdge t.status update.status →
      update_ticket_status_by_assignee db ticket_id project_id update u now =
        .error ⟨400, "Cannot go from " ++ statusValue t.status ++ " to "
                      ++ statusValue update.status⟩) := by
  simp only [update_ticket_status_by_assignee, hfind, hass]
  cases hts : t.status <;> cases hus : update.status <;>
    simp [ALLOWED_STATUS_TRANSITIONS, allowedEdge, statusValue]

def w1ticket : Ticket :=
  { id := 1, title := "t", description := "d", ttype := TicketType.other,
    priority := TicketPriority.medium, status := TicketStatus.«open»,
    created_by := 2, assigned_to := some 3, worker_team_id := none,
    team_id := 1, project_id := 1, feedback := none, confirmed := false,
    created_at := 0, updated_at := none, closed_at := none }

def w1user : User := { id := 3, name := "ann", is_available := true }

def w1db : DB :=
  { users := [w1user], teams := [⟨1⟩], projects := [⟨1, none⟩],
    userTeams := [], projectUsers := [], tickets := [w1ticket] }

/-- Witness for C1: the assignee requesting open→closed directly gets a
400 response. -/
theorem transition_only_forward_edges_witness :
    errStatus (update_ticket_status_by_assignee w1db 1 1 ⟨TicketStatus.closed⟩ w1user 5) =
      some 400 := by
  have h := (transition_only_forward_edges w1db 1 1 ⟨TicketStatus.closed⟩ w1user 5
    w1ticket rfl rfl).2 (by decide)
  simp [h, errStatus]

/-- C8: `update_ticket_status_by_assignee` yields `HTTPException(404)`
when no ticket with the given id exists in the given project, and
`HTTPException(403)` whenever the ticket exists but the actor is not its
current assignee, regardless of the requested status. -/
theorem transition_notfound_forbidden
    (db : DB) (ticket_id project_id : Nat) (update : TicketStatusUpdate)
    (u : User) (now : Nat) :
    (findTicket db ticket_id project_id = none →
      update_ticket_status_by_assignee db ticket_id project_id update u now =
        .error ⟨404, "Ticket not found"⟩) ∧
    (∀ t, findTicket db ticket_id project_id = some t →
      t.assigned_to ≠ some u.id →
      update_ticket_status_by_assignee db ticket_id project_id update u now =
        .error ⟨403, "Only assignee can update"⟩) := by
  constructor
  · intro h
    simp [update_ticket_status_by_assignee, h]
  · intro t h hne
    simp [update_ticket_status_by_assignee, h, hne]

def w8ticket : Ticket :=
  { id := 1, title := "t", description := "d", ttype := TicketType.other,
    priority := TicketPriority.medium, status := TicketStatus.«open»,
    created_by := 2, assigned_to := some 2, worker_team_id := none,
    team_id := 1, project_id := 1, feedback := none, confirmed := false,
    created_at := 0, updated_at := none, closed_at := none }

def w8user : User := { id := 3, name := "bob", is_available := true }

def w8db : DB :=
  { users := [w8user], teams := [⟨1⟩], projects := [⟨1, none⟩],
    userTeams := [], projectUsers := [], tickets := [w8ticket] }

/-- Witness for C8: a non-assignee requesting a transition gets 403. -/
theorem transition_notfound_forbidden_witness :
    update_ticket_status_by_assignee w8db 1 1 ⟨TicketStatus.in_progress⟩ w8user 5 =
      .error ⟨403, "Only assignee can update"⟩ :=
  (transition_notfound_forbidden w8db 1 1 ⟨TicketStatus.in_progress⟩ w8user 5).2
    w8ticket rfl (by decide)

/-- The closed_at/status invariant of one ticket row: `closed_at` is
non-null exactly when the status is closed. -/
def closedIffClosedAt (t : Ticket) : Prop :=
  t.closed_at ≠ none ↔ t.status = TicketStatus.closed

instance (t : Ticket) : Decidable (closedIffClosedAt t) := by
  unfold closedIffClosedAt
  infer_instance

/-- The closed_at/status invariant over the whole ticket table. -/
def TicketInvariant (db : DB) : Prop :=
  ∀ t ∈ db.tickets, closedIffClosedAt t

instance (db : DB) : Decidable (TicketInvariant db) := by
  unfold TicketInvariant
  infer_instance

theorem findTicket_mem {db : DB} {tid pid : Nat} {t : Ticket}
    (h : findTicket db tid pid = some t) : t ∈ db.tickets :=
  List.mem_of_find?_eq_some h

theorem updateTicket_keeps_invariant (db : DB) (t' : Ticket)
    (hinv : TicketInvariant db) (ht' : closedIffClosedAt t') :
    TicketInvariant (db.updateTicket t') := by
  intro x hx
  simp only [DB.updateTicket, List.mem_map] at hx
  obtain ⟨s, hs, hmap⟩ := hx
  by_cases hid : (s.id == t'.id) = true
  · rw [if_pos hid] at hmap
    exact hmap ▸ ht'
  · rw [if_neg hid] at hmap
    exact hmap ▸ hinv s hs

/-- C4: `closed_at` is non-null iff status is closed.  The invariant is
established on a freshly created ticket and preserved by every mutating
operation; `update_ticket_status_by_assignee` stamps `closed_at` with
the current time exactly when the transition enters the closed status. -/
theorem closed_at_iff_closed_invariant
    (db : DB) (hinv : TicketInvariant db) :
    (∀ tin uid pid tovr now fid db' t,
      create_ticket db tin uid pid tovr now fid = .ok (db', t) →
      TicketInvariant db' ∧ closedIffClosedAt t) ∧
    (∀ tid pid upd u now db' t,
      update_ticket_status_by_assignee db tid pid upd u now = .ok (db', t) →
      TicketInvariant db' ∧ closedIffClosedAt t ∧
        (t.status = TicketStatus.closed → t.closed_at = some now)) ∧
    (∀ tid pid upd u now db' t,
      leave_feedback_by_creator db tid pid upd u now = .ok (db', t) →
      TicketInvariant db') ∧
    (∀ tid upd pid db' t,
      update_ticket_assignee db tid upd pid = .ok (db', t) →
      TicketInvariant db') := by
  refine ⟨?_, ?_, ?_, ?_⟩
  · intro tin uid pid tovr now fid db' t h
    simp only [create_ticket] at h
    split at h
    · exact absurd h (by simp)
    split at h
    · exact absurd h (by simp)
    split at h
    · exact absurd h (by simp)
    split at h
    · exact absurd h (by simp)
    split at h
    · exact absurd h (by simp)
    split at h
    · exact absurd h (by simp)
    simp only [Except.ok.injEq, Prod.mk.injEq] at h
    obtain ⟨hdb', ht⟩ := h
    subst hdb' ht
    constructor
    · intro x hx
      simp only [List.mem_append, List.mem_singleton] at hx
      rcases hx with hx | hx
      · exact hinv x hx
      · subst hx
        simp [closedIffClosedAt]
    · simp [closedIffClosedAt]
  · intro tid pid upd u now db' t h
    cases hft : findTicket db tid pid with
    | none =>
      simp only [update_ticket_status_by_assignee, hft] at h
      exact absurd h (by simp)
    | some tk =>
      simp only [update_ticket_status_by_assignee, hft] at h
      split at h
      · exact absurd h (by simp)
      split at h
      · exact absurd h (by simp)
      next hc =>
      rw [not_not] at hc
      simp only [Except.ok.injEq, Prod.mk.injEq] at h
      obtain ⟨hdb', ht⟩ := h
      subst hdb' ht
      have htk := hinv tk (findTicket_mem hft)
      cases hts : tk.status <;> cases hus : upd.status <;>
        simp [ALLOWED_STATUS_TRANSITIONS, hts, hus] at hc <;>
        [skip; skip] <;>
      · have hnone : tk.closed_at = none := by
          simpa [closedIffClosedAt, hts] using htk
        refine ⟨updateTicket_keeps_invariant db _ hinv ?_, ?_, ?_⟩ <;>
          simp [closedIffClosedAt, hts, hus, hnone]
  · intro tid pid upd u now db' t h
    cases hft : findTicket db tid pid with
    | none =>
      simp only [leave_feedback_by_creator, hft] at h
      exact absurd h (by simp)
    | some tk =>
      simp only [leave_feedback_by_creator, hft] at h
      split at h
      · exact absurd h (by simp)
      split at h
      · exact absurd h (by simp)
      simp only [Except.ok.injEq, Prod.mk.injEq] at h
      obtain ⟨hdb', ht⟩ := h
      subst hdb' ht
      have htk := hinv tk (findTicket_mem hft)
      apply updateTicket_keeps_invariant db _ hinv
      simpa [closedIffClosedAt] using htk
  · intro tid upd pid db' t h
    cases hft : findTicket db tid pid with
    | none =>
      simp only [update_ticket_assignee, hft] at h
      exact absurd h (by simp)
    | some tk =>
      simp only [update_ticket_assignee, hft] at h
      split at h
      · exact absurd h (by simp)
      split at h
      · exact absurd h (by simp)
      split at h
      · exact absurd h (by simp)
      split at h
      · exact absurd h (by simp)
      split at h
      · exact absurd h (by simp)
      simp only [Except.ok.injEq, Prod.mk.injEq] at h
      obtain ⟨hdb', ht⟩ := h
      subst hdb' ht
      have htk := hinv tk (findTicket_mem hft)
      apply updateTicket_keeps_invariant db _ hinv
      simpa [closedIffClosedAt] using htk

def w4ticket : Ticket :=
  { id := 1, title := "t", description := "d", ttype := TicketType.other,
    priority := TicketPriority.medium, status := TicketStatus.in_progress,
    created_by := 2, assigned_to := some 3, worker_team_id := none,
    team_id := 1, project_id := 1, feedback := none, confirmed := false,
    created_at := 0, updated_at := none, closed_at := none }

def w4user : User := { id := 3, name := "cat", is_available := true }

def w4db : DB :=
  { users := [w4user], teams := [⟨1⟩], projects := [⟨1, none⟩],
    userTeams := [], projectUsers := [], tickets := [w4ticket] }

def w4ticket2 : Ticket :=
  { w4ticket with
    status := TicketStatus.closed
    closed_at := some 9
    updated_at := some 9 }

/-- Witness for C4: closing an in_progress ticket keeps the invariant
and stamps `closed_at`. -/
theorem closed_at_iff_closed_invariant_witness :
    TicketInvariant (w4db.updateTicket w4ticket2) ∧ w4ticket2.closed_at = some 9 := by
  have h := (closed_at_iff_closed_invariant w4db (by decide)).2.1 1 1
    ⟨TicketStatus.closed⟩ w4user 9 (w4db.updateTicket w4ticket2) w4ticket2 (by rfl)
  exact ⟨h.1, h.2.2 rfl⟩

/-- C5: `leave_feedback_by_creator` fails 404 when the ticket is absent
from the project, 403 unless the actor is the creator, 400 unless the
status is closed; on success it overwrites `confirmed` unconditionally,
changes `feedback` only when a non-empty value is supplied (a `None` or
empty value leaves the stored feedback untouched) and stamps
`updated_at`. -/
theorem leave_feedback_spec
    (db : DB) (tid pid : Nat) (upd : TicketFeedbackUpdate) (u : User) (now : Nat) :
    (findTicket db tid pid = none →
      leave_feedback_by_creator db tid pid upd u now =
        .error ⟨404, "Ticket not found"⟩) ∧
    (∀ t, findTicket db tid pid = some t → t.created_by ≠ u.id →
      leave_feedback_by_creator db tid pid upd u now =
        .error ⟨403, "Only creator can leave feedback"⟩) ∧
    (∀ t, findTicket db tid pid = some t → t.created_by = u.id →
      t.status ≠ TicketStatus.closed →
      leave_feedback_by_creator db tid pid upd u now =
        .error ⟨400, "Feedback only after close"⟩) ∧
    (∀ t, findTicket db tid pid = some t → t.created_by = u.id →
      t.status = TicketStatus.closed →
      ∃ db' t', leave_feedback_by_creator db tid pid upd u now = .ok (db', t') ∧
        t'.confirmed = upd.confirmed ∧
        t'.updated_at = some now ∧
        ((upd.feedback = none ∨ upd.feedback = some "") → t'.feedback = t.feedback) ∧
        (∀ f, upd.feedback = some f → f ≠ "" → t'.feedback = some f)) := by
  refine ⟨?_, ?_, ?_, ?_⟩
  · intro h
    simp [leave_feedback_by_creator, h]
  · intro t h hne
    simp [leave_feedback_by_creator, h, hne]
  · intro t h hc hs
    simp [leave_feedback_by_creator, h, hc, hs]
  · intro t h hc hs
    have hok : leave_feedback_by_creator db tid pid upd u now =
        .ok (db.updateTicket { t with
                feedback := pyOrStr upd.feedback t.feedback
                confirmed := upd.confirmed
                updated_at := some now },
              { t with
                feedback := pyOrStr upd.feedback t.feedback
                confirmed := upd.confirmed
                updated_at := some now }) := by
      simp [leave_feedback_by_creator, h, hc, hs]
    refine ⟨_, _, hok, rfl, rfl, ?_, ?_⟩
    · intro hf
      rcases hf with hf | hf <;> simp [pyOrStr, hf]
    · intro f hf hne
      simp [pyOrStr, hf, hne]

def w5ticket : Ticket :=
  { id := 1, title := "t", description := "d", ttype := TicketType.other,
    priority := TicketPriority.medium, status := TicketStatus.closed,
    created_by := 2, assigned_to := some 3, worker_team_id := none,
    team_id := 1, project_id := 1, feedback := some "old", confirmed := false,
    created_at := 0, updated_at := none, closed_at := some 1 }

def w5user : User := { id := 2, name := "dan", is_available := true }

def w5db : DB :=
  { users := [w5user], teams := [⟨1⟩], projects := [⟨1, none⟩],
    userTeams := [], projectUsers := [], tickets := [w5ticket] }

/-- Witness for C5: the creator leaving empty feedback with
confirmed = true on a closed ticket preserves the stored feedback and
sets the flag. -/
theorem leave_feedback_spec_witness :
    ∃ db' t', leave_feedback_by_creator w5db 1 1 ⟨some "", true⟩ w5user 9 = .ok (db', t') ∧
      t'.confirmed = true ∧ t'.updated_at = some 9 ∧ t'.feedback = some "old" := by
  obtain ⟨db', t', hok, hconf, hupd, hpres, _⟩ :=
    (leave_feedback_spec w5db 1 1 ⟨some "", true⟩ w5user 9).2.2.2 w5ticket rfl rfl rfl
  exact ⟨db', t', hok, hconf, hupd, hpres (Or.inr rfl)⟩

/-- C6: in `create_ticket`, an explicit worker_team_id must equal the
project's configured worker team, else 400; absent an explicit value, a
worker-type ticket auto-assigns the project's configured worker team,
and when the project has none configured the call fails 400. -/
theorem create_worker_team_resolution
    (db : DB) (tin : TicketCreate) (uid pid : Nat) (tovr : Option Nat)
    (now fid etid : Nat) (team : Team) (project : Project) (pu : ProjectUser)
    (aid : Option Nat)
    (hteam : resolve_effective_team db tovr tin.team_id uid = .ok etid)
    (hfteam : db.teams.find? (fun tm => tm.id == etid) = some team)
    (hproj : db.projects.find? (fun p => p.id == pid) = some project)
    (hmem : db.projectUsers.find?
      (fun x => x.user_id == uid && x.project_id == pid) = some pu)
    (hass : resolve_assignee db tin.assigned_to_name pid = .ok aid) :
    (∀ w, tin.worker_team_id = some w → project.worker_team_id ≠ some w →
      create_ticket db tin uid pid tovr now fid =
        .error ⟨400, "Worker team not assigned to this project"⟩) ∧
    (∀ w, tin.worker_team_id = some w → project.worker_team_id = some w →
      ∃ db' t, create_ticket db tin uid pid tovr now fid = .ok (db', t) ∧
        t.worker_team_id = some w) ∧
    (tin.worker_team_id = none → tin.ttype = TicketType.worker →
      ∀ pw, project.worker_team_id = some pw → pw ≠ 0 →
      ∃ db' t, create_ticket db tin uid pid tovr now fid = .ok (db', t) ∧
        t.worker_team_id = some pw) ∧
    (tin.worker_team_id = none → tin.ttype = TicketType.worker →
      project.worker_team_id = none →
      create_ticket db tin uid pid tovr now fid =
        .error ⟨400, "No worker team assigned to project"⟩) := by
  refine ⟨?_, ?_, ?_, ?_⟩
  · intro w hw hne
    simp [create_ticket, hteam, hfteam, hproj, hmem, hass,
      resolve_worker_team, hw, hne]
  · intro w hw heq
    have hok : create_ticket db tin uid pid tovr now fid =
        .ok ({ db with tickets := db.tickets ++
                [{ id := fid, title := tin.title, description := tin.description,
                   ttype := tin.ttype, priority := tin.priority,
                   status := TicketStatus.«open», created_by := uid,
                   assigned_to := aid, worker_team_id := some w,
                   team_id := team.id, project_id := pid, feedback := none,
                   confirmed := false, created_at := now, updated_at := none,
                   closed_at := none }] },
              { id := fid, title := tin.title, description := tin.description,
                ttype := tin.ttype, priority := tin.priority,
                status := TicketStatus.«open», created_by := uid,
                assigned_to := aid, worker_team_id := some w,
                team_id := team.id, project_id := pid, feedback := none,
                confirmed := false, created_at := now, updated_at := none,
                closed_at := none }) := by
      simp [create_ticket, hteam, hfteam, hproj, hmem, hass,
        resolve_worker_team, hw, heq]
    exact ⟨_, _, hok, rfl⟩
  · intro hw hty pw hpw hpw0
    have hok : create_ticket db tin uid pid tovr now fid =
        .ok ({ db with tickets := db.tickets ++
                [{ id := fid, title := tin.title, description := tin.description,
                   ttype := tin.ttype, priority := tin.priority,
                   status := TicketStatus.«open», created_by := uid,
                   assigned_to := aid, worker_team_id := some pw,
                   team_id := team.id, project_id := pid, feedback := none,
                   confirmed := false, created_at := now, updated_at := none,
                   closed_at := none }] },
              { id := fid, title := tin.title, description := tin.description,
                ttype := tin.ttype, priority := tin.priority,
                status := TicketStatus.«open», created_by := uid,
                assigned_to := aid, worker_team_id := some pw,
                team_id := team.id, project_id := pid, feedback := none,
                confirmed := false, created_at := now, updated_at := none,
                closed_at := none }) := by
      simp [create_ticket, hteam, hfteam, hproj, hmem, hass,
        resolve_worker_team, hw, hty, hpw, hpw0]
    exact ⟨_, _, hok, rfl⟩
  · intro hw hty hnone
    simp [create_ticket, hteam, hfteam, hproj, hmem, hass,
      resolve_worker_team, hw, hty, hnone]

def w6tin : TicketCreate :=
  { title := "t", description := "d", ttype := TicketType.worker,
    team_id := some 1, project_id := some 1, assigned_to_name := none,
    assigned_to := none, worker_team_id := none,
    priority := TicketPriority.medium }

def w6db : DB :=
  { users := [⟨3, "eva", true⟩], teams := [⟨1⟩, ⟨7⟩],
    projects := [⟨1, some 7⟩], userTeams := [⟨3, 1, TeamRole.member, 0⟩],
    projectUsers := [⟨3, 1, Role.member⟩], tickets := [] }

/-- Witness for C6: a worker-type ticket with no explicit worker team in
a project whose worker team is 7 is created with worker_team_id 7. -/
theorem create_worker_team_resolution_witness :
    ∃ db' t, create_ticket w6db w6tin 3 1 none 5 10 = .ok (db', t) ∧
      t.worker_team_id = some 7 :=
  (create_worker_team_resolution w6db w6tin 3 1 none 5 10 1 ⟨1⟩ ⟨1, some 7⟩
    ⟨3, 1, Role.member⟩ none rfl rfl rfl rfl rfl).2.2.1 rfl rfl 7 rfl (by decide)

def c7tin : TicketCreate :=
  { title := "t", description := "d", ttype := TicketType.other,
    team_id := none, project_id := none, assigned_to_name := none,
    assigned_to := none, worker_team_id := none,
    priority := TicketPriority.medium }

def c7db : DB :=
  { users := [⟨3, "alice", true⟩], teams := [⟨1⟩], projects := [⟨1, none⟩],
    userTeams := [], projectUsers := [⟨3, 1, Role.member⟩], tickets := [] }

/-- Counterexample for C7: when no team is resolvable and the actor has
no team membership, `create_ticket` raises 400 ("Team ID must be
provided"), not the 404 NotFound the claim states. -/
theorem create_no_team_not_notfound :
    create_ticket c7db c7tin 3 1 none 0 10 =
      .error ⟨400, "Team ID must be provided"⟩ ∧
    errStatus (create_ticket c7db c7tin 3 1 none 0 10) ≠ some 404 := by
  constructor
  · rfl
  · decide

/-- C7 (amended): the effective team of `create_ticket` is the explicit
override when truthy, else the payload team when truthy, else the
actor's first team membership; when none of these yields a team the
operation fails with 400 BadRequest ("Team ID must be provided"), not
404, and `create_ticket` propagates that error. -/
theorem effective_team_resolution
    (db : DB) (ovr tinid : Option Nat) (uid : Nat) :
    (∀ o, ovr = some o → o ≠ 0 →
      resolve_effective_team db ovr tinid uid = .ok o) ∧
    ((ovr = none ∨ ovr = some 0) → ∀ ti, tinid = some ti → ti ≠ 0 →
      resolve_effective_team db ovr tinid uid = .ok ti) ∧
    ((ovr = none ∨ ovr = some 0) → tinid = none →
      db.userTeams.filter (fun ut => ut.user_id == uid) = [] →
      resolve_effective_team db ovr tinid uid =
        .error ⟨400, "Team ID must be provided"⟩) ∧
    ((ovr = none ∨ ovr = some 0) → tinid = none →
      ∀ ut uts, db.userTeams.filter (fun x => x.user_id == uid) = ut :: uts →
      resolve_effective_team db ovr tinid uid = .ok ut.team_id) ∧
    (∀ e, resolve_effective_team db ovr tinid uid = .error e →
      ∀ tin : TicketCreate, tin.team_id = tinid → ∀ pid now fid,
      create_ticket db tin uid pid ovr now fid = .error e) := by
  refine ⟨?_, ?_, ?_, ?_, ?_⟩
  · intro o ho hne
    simp [resolve_effective_team, pyOrNat, ho, hne]
  · intro hovr ti hti hne
    rcases hovr with h | h <;> simp [resolve_effective_team, pyOrNat, h, hti, hne]
  · intro hovr htin hfil
    rcases hovr with h | h <;>
      simp [resolve_effective_team, pyOrNat, h, htin, hfil]
  · intro hovr htin ut uts hfil
    rcases hovr with h | h <;>
      simp [resolve_effective_team, pyOrNat, h, htin, hfil]
  · intro e he tin htin pid now fid
    simp [create_ticket, htin, he]

/-- Witness for C7's amended statement: a caller with no team membership
and no supplied team gets the 400 error. -/
theorem effective_team_resolution_witness :
    resolve_effective_team c7db none none 3 =
      .error ⟨400, "Team ID must be provided"⟩ :=
  (effective_team_resolution c7db none none 3).2.2.1 (Or.inl rfl) rfl rfl

/-- Uniqueness of the (user, project) membership pair, which the spec's
data model states for ProjectUser rows. -/
def uniqueProjectMemberships (db : DB) : Prop :=
  ∀ pu1 ∈ db.projectUsers, ∀ pu2 ∈ db.projectUsers,
    pu1.user_id = pu2.user_id → pu1.project_id = pu2.project_id → pu1 = pu2

instance (db : DB) : Decidable (uniqueProjectMemberships db) := by
  unfold uniqueProjectMemberships
  infer_instance

/-- C3: under unique project memberships the two target-role checks of
`update_ticket_assignee` cannot both pass — the admin check needs the
membership row's role to be admin while the member-or-worker check
needs the same unique row's role to be member or worker — so every call
raises and the assignee is never updated; when the ticket exists the
raised error is a 403 Forbidden. -/
theorem reassign_always_raises
    (db : DB) (huniq : uniqueProjectMemberships db)
    (tid : Nat) (upd : TicketAssigneeUpdate) (pid : Nat) :
    (∀ db' r, update_ticket_assignee db tid upd pid ≠ .ok (db', r)) ∧
    (∀ t, findTicket db tid pid = some t →
      errStatus (update_ticket_assignee db tid upd pid) = some 403) := by
  have key : ∀ t, findTicket db tid pid = some t →
      errStatus (update_ticket_assignee db tid upd pid) = some 403 := by
    intro t hft
    cases hadm : db.projectUsers.find? (fun pu =>
        pu.user_id == upd.assigned_to && pu.project_id == pid &&
        pu.role == Role.admin) with
    | none =>
      simp [update_ticket_assignee, hft, hadm, errStatus]
    | some pu =>
      have hpu_mem := List.mem_of_find?_eq_some hadm
      have hpu_pred := List.find?_some hadm
      simp only [Bool.and_eq_true, beq_iff_eq] at hpu_pred
      obtain ⟨⟨hpuid, hppid⟩, hprole⟩ := hpu_pred
      cases hrl : db.projectUsers.find? (fun pu =>
          pu.user_id == upd.assigned_to && pu.project_id == pid) with
      | none =>
        simp [update_ticket_assignee, hft, hadm, hrl, errStatus]
      | some rl =>
        have hrl_mem := List.mem_of_find?_eq_some hrl
        have hrl_pred := List.find?_some hrl
        simp only [Bool.and_eq_true, beq_iff_eq] at hrl_pred
        obtain ⟨hrlid, hrlpid⟩ := hrl_pred
        have heq : pu = rl :=
          huniq pu hpu_mem rl hrl_mem (by rw [hpuid, hrlid]) (by rw [hppid, hrlpid])
        have hrole : rl.role = Role.admin := by rw [← heq, hprole]
        simp [update_ticket_assignee, hft, hadm, hrl, hrole, errStatus]
  refine ⟨?_, key⟩
  intro db' r hok
  cases hft : findTicket db tid pid with
  | none =>
    simp [update_ticket_assignee, hft] at hok
  | some t =>
    have hkey := key t hft
    rw [hok] at hkey
    simp [errStatus] at hkey

def w3ticket : Ticket :=
  { id := 1, title := "t", description := "d", ttype := TicketType.other,
    priority := TicketPriority.medium, status := TicketStatus.«open»,
    created_by := 2, assigned_to := some 2, worker_team_id := none,
    team_id := 1, project_id := 1, feedback := none, confirmed := false,
    created_at := 0, updated_at := none, closed_at := none }

def w3db : DB :=
  { users := [⟨9, "gil", true⟩], teams := [⟨1⟩], projects := [⟨1, none⟩],
    userTeams := [], projectUsers := [⟨9, 1, Role.admin⟩],
    tickets := [w3ticket] }

/-- Witness for C3: with a unique membership whose role is admin, the
member-or-worker check rejects and the call yields 403. -/
theorem reassign_always_raises_witness :
    errStatus (update_ticket_assignee w3db 1 ⟨9⟩ 1) = some 403 :=
  (reassign_always_raises w3db (by decide) 1 ⟨9⟩ 1).2 w3ticket rfl

def c2ticket : Ticket :=
  { id := 1, title := "t", description := "d", ttype := TicketType.other,
    priority := TicketPriority.medium, status := TicketStatus.«open»,
    created_by := 2, assigned_to := some 2, worker_team_id := none,
    team_id := 1, project_id := 1, feedback := none, confirmed := false,
    created_at := 0, updated_at := none, closed_at := none }

def c2db : DB :=
  { users := [⟨9, "bob", false⟩], teams := [⟨1⟩], projects := [⟨1, none⟩],
    userTeams := [], projectUsers := [⟨9, 1, Role.member⟩],
    tickets := [c2ticket] }

/-- Counterexample for C2: the ticket exists and the target user has
is_available = false (role member), yet the call fails with 403 from the
admin role check, not the claimed 400 BadRequest. -/
theorem reassign_unavailable_not_badrequest :
    findTicket c2db 1 1 = some c2ticket ∧
    c2db.users.find? (fun x => x.id == 9) = some ⟨9, "bob", false⟩ ∧
    update_ticket_assignee c2db 1 ⟨9⟩ 1 =
      .error ⟨403, "Only project admin can reassign"⟩ ∧
    errStatus (update_ticket_assignee c2db 1 ⟨9⟩ 1) ≠ some 400 := by
  refine ⟨rfl, rfl, rfl, by decide⟩

/-- C2 (amended): reassignment targeting a user with is_available =
false always fails, regardless of role, but the error is 403 Forbidden
whenever one of the role checks rejects first (under unique memberships,
always) and 400 from the availability check only when both role checks
pass; in no case is the ticket assigned to the unavailable user. -/
theorem reassign_unavailable_always_fails
    (db : DB) (tid pid : Nat) (upd : TicketAssigneeUpdate) (t : Ticket) (u : User)
    (hfind : findTicket db tid pid = some t)
    (huser : db.users.find? (fun x => x.id == upd.assigned_to) = some u)
    (hunav : u.is_available = false) :
    errStatus (update_ticket_assignee db tid upd pid) = some 403 ∨
    errStatus (update_ticket_assignee db tid upd pid) = some 400 := by
  cases hadm : db.projectUsers.find? (fun pu =>
      pu.user_id == upd.assigned_to && pu.project_id == pid &&
      pu.role == Role.admin) with
  | none =>
    left
    simp [update_ticket_assignee, hfind, hadm, errStatus]
  | some pu =>
    cases hrl : db.projectUsers.find? (fun pu =>
        pu.user_id == upd.assigned_to && pu.project_id == pid) with
    | none =>
      left
      simp [update_ticket_assignee, hfind, hadm, hrl, errStatus]
    | some rl =>
      by_cases h3 : rl.role = Role.member ∨ rl.role = Role.worker
      · right
        simp [update_ticket_assignee, hfind, hadm, hrl, h3, huser, hunav, errStatus]
      · left
        simp [update_ticket_assignee, hfind, hadm, hrl, h3, errStatus]

def w2ticket : Ticket :=
  { id := 1, title := "t", description := "d", ttype := TicketType.other,
    priority := TicketPriority.medium, status := TicketStatus.«open»,
    created_by := 2, assigned_to := some 2, worker_team_id := none,
    team_id := 1, project_id := 1, feedback := none, confirmed := false,
    created_at := 0, updated_at := none, closed_at := none }

def w2db : DB :=
  { users := [⟨9, "hal", false⟩], teams := [⟨1⟩], projects := [⟨1, none⟩],
    userTeams := [], projectUsers := [⟨9, 1, Role.member⟩],
    tickets := [w2ticket] }

/-- Witness for C2's amended statement. -/
theorem reassign_unavailable_always_fails_witness :
    errStatus (update_ticket_assignee w2db 1 ⟨9⟩ 1) = some 403 ∨
    errStatus (update_ticket_assignee w2db 1 ⟨9⟩ 1) = some 400 :=
  reassign_unavailable_always_fails w2db 1 1 ⟨9⟩ w2ticket ⟨9, "hal", false⟩ rfl rfl rfl

/-- C10: when `update_ticket_assignee` does reach its success branch it
changes only the assigned_to field — updated_at is not stamped and every
other field keeps its value — and the stored table merely replaces that
row. -/
theorem reassign_frame
    (db : DB) (tid pid : Nat) (upd : TicketAssigneeUpdate) (t : Ticket)
    (hfind : findTicket db tid pid = some t) (db' : DB) (t' : Ticket)
    (hok : update_ticket_assignee db tid upd pid = .ok (db', t')) :
    t'.assigned_to = some upd.assigned_to ∧
    t'.updated_at = t.updated_at ∧
    t'.title = t.title ∧ t'.description = t.description ∧
    t'.ttype = t.ttype ∧ t'.priority = t.priority ∧
    t'.status = t.status ∧ t'.created_by = t.created_by ∧
    t'.worker_team_id = t.worker_team_id ∧ t'.team_id = t.team_id ∧
    t'.project_id = t.project_id ∧ t'.feedback = t.feedback ∧
    t'.confirmed = t.confirmed ∧ t'.created_at = t.created_at ∧
    t'.closed_at = t.closed_at ∧ db' = db.updateTicket t' := by
  simp only [update_ticket_assignee, hfind] at hok
  split at hok
  · exact absurd hok (by simp)
  split at hok
  · exact absurd hok (by simp)
  split at hok
  · exact absurd hok (by simp)
  split at hok
  · exact absurd hok (by simp)
  split at hok
  · exact absurd hok (by simp)
  simp only [Except.ok.injEq, Prod.mk.injEq] at hok
  obtain ⟨hdb', ht'⟩ := hok
  subst hdb'
  subst ht'
  simp

def w10ticket : Ticket :=
  { id := 1, title := "t", description := "d", ttype := TicketType.other,
    priority := TicketPriority.medium, status := TicketStatus.«open»,
    created_by := 2, assigned_to := some 2, worker_team_id := none,
    team_id := 1, project_id := 1, feedback := none, confirmed := false,
    created_at := 0, updated_at := some 4, closed_at := none }

def w10db : DB :=
  { users := [⟨5, "eve", true⟩], teams := [⟨1⟩], projects := [⟨1, none⟩],
    userTeams := [],
    projectUsers := [⟨5, 1, Role.member⟩, ⟨5, 1, Role.admin⟩],
    tickets := [w10ticket] }

def w10ticket2 : Ticket := { w10ticket with assigned_to := some 5 }

/-- Witness for C10: with two membership rows for the same (user,
project) pair — representable in the row list though the spec's
uniqueness invariant forbids it — both role checks pass and the update
succeeds, changing only assigned_to and leaving updated_at alone. -/
theorem reassign_frame_witness :
    w10ticket2.assigned_to = some 5 ∧ w10ticket2.updated_at = w10ticket.updated_at :=
  ⟨(reassign_frame w10db 1 1 ⟨5⟩ w10ticket rfl (w10db.updateTicket w10ticket2)
      w10ticket2 (by rfl)).1,
   (reassign_frame w10db 1 1 ⟨5⟩ w10ticket rfl (w10db.updateTicket w10ticket2)
      w10ticket2 (by rfl)).2.1⟩

/-- C9: `add_user_to_team` fails 403 unless the caller holds the admin
role in the team, fails 400 when a (user, team) membership already
exists — the error carrying no new table, so no row is created — and on
success appends exactly one membership row with the given role (the
HTTP layer defaults the query parameter to member) and the current
timestamp. -/
theorem add_member_spec
    (db : DB) (user_id team_id : Nat) (role : TeamRole) (cu : User) (now : Nat) :
    (db.userTeams.any (fun ut => ut.user_id == cu.id && ut.team_id == team_id &&
        ut.role == TeamRole.admin) = false →
      add_user_to_team db user_id team_id role cu now =
        .error ⟨403, "Requires team admin role."⟩) ∧
    (db.userTeams.any (fun ut => ut.user_id == cu.id && ut.team_id == team_id &&
        ut.role == TeamRole.admin) = true →
      ∀ ex, db.userTeams.find? (fun ut => ut.user_id == user_id &&
          ut.team_id == team_id) = some ex →
      add_user_to_team db user_id team_id role cu now =
        .error ⟨400, "User already in team"⟩) ∧
    (db.userTeams.any (fun ut => ut.user_id == cu.id && ut.team_id == team_id &&
        ut.role == TeamRole.admin) = true →
      db.userTeams.find? (fun ut => ut.user_id == user_id &&
          ut.team_id == team_id) = none →
      add_user_to_team db user_id team_id role cu now =
        .ok ({ db with userTeams := db.userTeams ++
                [{ user_id := user_id, team_id := team_id,
                   role := role, joined_at := now }] },
             { user_id := user_id, team_id := team_id,
               role := role, joined_at := now })) := by
  refine ⟨?_, ?_, ?_⟩
  · intro h
    simp [add_user_to_team, h]
  · intro h ex hex
    simp [add_user_to_team, h, hex]
  · intro h hnone
    simp [add_user_to_team, h, hnone]

def w9cu : User := { id := 1, name := "adm", is_available := true }

def w9db : DB :=
  { users := [w9cu, ⟨2, "new", true⟩], teams := [⟨4⟩], projects := [],
    userTeams := [⟨1, 4, TeamRole.admin, 0⟩], projectUsers := [],
    tickets := [] }

/-- Witness for C9: a team admin adds a fresh member; the new row has
the requested role and timestamp. -/
theorem add_member_spec_witness :
    add_user_to_team w9db 2 4 TeamRole.member w9cu 7 =
      .ok ({ w9db with userTeams := w9db.userTeams ++ [⟨2, 4, TeamRole.member, 7⟩] },
           ⟨2, 4, TeamRole.member, 7⟩) :=
  (add_member_spec w9db 2 4 TeamRole.member w9cu 7).2.2 rfl rfl

end TicketSystem
